import Mathlib

/-!
Verification of the MCP operations server core: a shallow embedding of the
authenticate → authorize → execute → audit pipeline (`src/server.py`,
`src/auth/authenticator.py`, `src/audit/logger.py`) together with proofs of
the specified properties.

Python strings are embedded as `String`; Python slicing `s[:n]` is embedded
as taking the first `n` characters.  Python JSON-like values (the
heterogeneous argument mappings and tool results) are embedded as the
inductive type `PyVal`; Python mappings become association lists with the
first binding of a key authoritative (Python dict keys are unique).
-/

namespace MCPOps

/-- Embedding of Python slicing `s[:n]`: the first `n` characters. -/
def pyTake (s : String) (n : Nat) : String :=
  String.mk (s.toList.take n)

/-- Python `str.lower()` on the role alphabet, character by character. -/
def pyLower (s : String) : String :=
  String.mk (s.toList.map Char.toLower)

/-- A single-quote character, used to build error messages. -/
def sq : String :=
  String.singleton (Char.ofNat 39)

/-- Embedding of Python JSON-like values. -/
inductive PyVal where
  | str (s : String)
  | int (n : Int)
  | bool (b : Bool)
  | none
  | list (xs : List PyVal)
  | dict (entries : List (String × PyVal))

/-- Python truthiness (`if value:`) for the embedded values. -/
def PyVal.truthy : PyVal → Bool
  | .str s => !s.isEmpty
  | .int n => n != 0
  | .bool b => b
  | .none => false
  | .list xs => !xs.isEmpty
  | .dict es => !es.isEmpty

/-- `d.get(k)`: first binding of `k`, if any. -/
def dictGet (es : List (String × PyVal)) (k : String) : Option PyVal :=
  (es.find? (fun e => e.1 = k)).map (fun e => e.2)

/-- `d.get(k, default)`. -/
def dictGetD (es : List (String × PyVal)) (k : String) (d : PyVal) : PyVal :=
  (dictGet es k).getD d

/-- `d.pop(k, None)` leaves the mapping without key `k`. -/
def removeKey (es : List (String × PyVal)) (k : String) : List (String × PyVal) :=
  es.filter (fun e => e.1 ≠ k)

/-- Read a string-valued argument, for values handed to string-typed APIs. -/
def pyGetStr (es : List (String × PyVal)) (k : String) : Option String :=
  match dictGet es k with
  | some (.str s) => some s
  | _ => Option.none

/-- Read an integer-valued argument with a default (`arguments.get(k, d)`). -/
def pyGetInt (es : List (String × PyVal)) (k : String) (d : Int) : Int :=
  match dictGet es k with
  | some (.int n) => n
  | _ => d

/-! ## Authenticator (`src/auth/authenticator.py`) -/

/-- `UserRole` from `src/schemas/models.py`. -/
inductive UserRole where
  | admin
  | analyst
  | readonly
deriving DecidableEq, Repr

/-- The `.value` of each enum member. -/
def UserRole.value : UserRole → String
  | .admin => "admin"
  | .analyst => "analyst"
  | .readonly => "readonly"

/-- `UserRole(s)`: Python enum lookup by value, `ValueError` as `none`. -/
def roleOfString (s : String) : Option UserRole :=
  if s = "admin" then some .admin
  else if s = "analyst" then some .analyst
  else if s = "readonly" then some .readonly
  else Option.none

/-- `Authenticator.ROLE_PERMISSIONS`: permissions per role. -/
def ROLE_PERMISSIONS : UserRole → List String
  | .admin => ["sql_query", "search", "weather", "geocoding", "view_audit", "manage_users"]
  | .analyst => ["sql_query", "search", "weather", "geocoding", "view_audit"]
  | .readonly => ["sql_query", "weather", "geocoding"]

/-- The six defined capabilities. -/
def allCapabilities : List String :=
  ["sql_query", "search", "weather", "geocoding", "view_audit", "manage_users"]

/-- `AuthContext` (the fields the core reads; `authenticated_at` is a wall
clock timestamp the pipeline never inspects and is omitted). -/
structure AuthContext where
  user_id : String
  role : UserRole
  api_key_hash : String
deriving DecidableEq, Repr

/-- The message of the `AuthorizationError` raised by `authorize`. -/
def forbiddenMsg (role : UserRole) (tool_name : String) : String :=
  "Role " ++ sq ++ role.value ++ sq ++ " cannot access tool " ++ sq ++ tool_name ++ sq

/-- `Authenticator.authorize`: returns `true` or raises `AuthorizationError`
(embedded as `Except.error` with the exception message). -/
def authorize (role : UserRole) (tool_name : String) : Except String Bool :=
  let allowed := ROLE_PERMISSIONS role
  if tool_name ∈ allowed then .ok true
  else .error (forbiddenMsg role tool_name)

/-- One cache entry of `Authenticator._api_key_cache`:
`key_hash ↦ (masked key, role)`. -/
abbrev KeyCache := List (String × String × UserRole)

/-- `Authenticator._load_api_keys`: hash each configured key, mask it to its
first 8 characters plus `"..."`, and drop entries with invalid roles.  The
hash (`hashlib.sha256` hexdigest in the source) is a parameter of the model.
Configured keys are Python dict keys, hence unique, so the association list
built here has at most one binding per hash up to hash collisions. -/
def loadApiKeys (hash : String → String) (cfg : List (String × String)) : KeyCache :=
  cfg.filterMap (fun kr =>
    (roleOfString (pyLower kr.2)).map
      (fun role => (hash kr.1, pyTake kr.1 8 ++ "...", role)))

/-- `Authenticator.authenticate`.  `api_key = none` embeds Python `None`;
`some ""` is likewise falsy for `if not api_key:`. -/
def authenticate (hash : String → String) (auth_enabled : Bool) (cache : KeyCache)
    (api_key : Option String) : Except String AuthContext :=
  if !auth_enabled then
    .ok ⟨"anonymous", .admin, "disabled"⟩
  else if (match api_key with | Option.none => true | some s => s.isEmpty) then
    .error "API key required"
  else
    let kh := hash (api_key.getD "")
    match cache.find? (fun e => e.1 = kh) with
    | Option.none => .error "Invalid API key"
    | some e => .ok ⟨e.2.1, e.2.2, pyTake kh 16⟩

/-! ## Audit sink (`src/audit/logger.py`) -/

/-- The substrings whose presence in a lowercased key marks it sensitive
(`AuditLogger._sanitize_input`, local `sensitive_keys`). -/
def SENSITIVE_KEYS : List String :=
  ["password", "api_key", "token", "secret", "credential"]

/-- Whether `needle` occurs at the start of `hay`. -/
def startsWithChars : List Char → List Char → Bool
  | [], _ => true
  | _ :: _, [] => false
  | a :: as, b :: bs => a == b && startsWithChars as bs

/-- Python substring containment `needle in hay`, on character lists. -/
def containsChars (needle : List Char) : List Char → Bool
  | [] => needle.isEmpty
  | b :: bs => startsWithChars needle (b :: bs) || containsChars needle bs

/-- `any(s in key.lower() for s in sensitive_keys)`. -/
def isSensitiveKey (key : String) : Bool :=
  SENSITIVE_KEYS.any (fun s => containsChars s.toList (key.toList.map Char.toLower))

/-- `AuditLogger._sanitize_input`: redact sensitive keys, recurse into
mapping values, leave everything else (lists included) unchanged. -/
def sanitizeInput : List (String × PyVal) → List (String × PyVal)
  | [] => []
  | (k, v) :: rest =>
    (k, if isSensitiveKey k then PyVal.str "[REDACTED]"
        else match v with
          | .dict d => .dict (sanitizeInput d)
          | _ => v) :: sanitizeInput rest

/-- One persisted row of the `audit_logs` table (the `AuditLog` model).
`input_data` is kept structured: the row stores `json.dumps` of the
sanitized mapping and `query` applies `json.loads`, a faithful roundtrip. -/
structure AuditRow where
  id : String
  timestamp : Nat
  user_id : String
  user_role : String
  tool_name : String
  input_data : List (String × PyVal)
  output_summary : String
  success : Bool
  error_message : Option PyVal
  execution_time_ms : Nat
  ip_address : Option String

/-- The audit sink's state: its settings flag is the process-wide
`audit_enabled`, `initialized` is set by successful initialization, and the
two failure flags model the database raising on write and on read. -/
structure AuditState where
  audit_enabled : Bool
  initialized : Bool
  persistFails : Bool
  queryFails : Bool
  rows : List AuditRow

/-- The database commit inside `AuditLogger.log`: appends the row or raises
(an `Except.error` the logger catches). -/
def persistRow (st : AuditState) (row : AuditRow) : Except String AuditState :=
  if st.persistFails then .error "database failure"
  else .ok { st with rows := st.rows ++ [row] }

/-- The `AuditLog(...)` row `AuditLogger.log` assembles: input sanitized,
output summary truncated to 1000 characters, all other fields verbatim. -/
def auditRowOf (newId : String) (now : Nat)
    (user_id : String) (user_role : UserRole) (tool_name : String)
    (input_data : List (String × PyVal)) (output_summary : String)
    (success : Bool) (execution_time_ms : Nat)
    (error_message : Option PyVal) (ip_address : Option String) : AuditRow :=
  { id := newId
    timestamp := now
    user_id := user_id
    user_role := user_role.value
    tool_name := tool_name
    input_data := sanitizeInput input_data
    output_summary := pyTake output_summary 1000
    success := success
    error_message := error_message
    execution_time_ms := execution_time_ms
    ip_address := ip_address }

/-- `AuditLogger.log`.  `newId` stands for the fresh `uuid.uuid4()` and
`now` for `datetime.utcnow()`.  Returns the updated sink state and the
value the method returns (the entry id or `None`). -/
def auditLog (st : AuditState) (newId : String) (now : Nat)
    (user_id : String) (user_role : UserRole) (tool_name : String)
    (input_data : List (String × PyVal)) (output_summary : String)
    (success : Bool) (execution_time_ms : Nat)
    (error_message : Option PyVal) (ip_address : Option String) :
    AuditState × Option String :=
  if !st.audit_enabled || !st.initialized then (st, Option.none)
  else
    match persistRow st (auditRowOf newId now user_id user_role tool_name
        input_data output_summary success execution_time_ms error_message
        ip_address) with
    | .error _ => (st, Option.none)
    | .ok st' => (st', some newId)

/-- The optional filters of `AuditLogger.query`. -/
structure QueryFilters where
  user_id : Option String := Option.none
  tool_name : Option String := Option.none
  start_time : Option Nat := Option.none
  end_time : Option Nat := Option.none
  success_only : Bool := false

/-- Whether a row satisfies every supplied filter.  A filter is applied only
when its argument is truthy, matching the `if user_id:` guards: `None` and
the empty string both skip the corresponding `where` clause. -/
def rowMatches (f : QueryFilters) (r : AuditRow) : Bool :=
  (match f.user_id with
   | some u => u.isEmpty || r.user_id = u
   | Option.none => true) &&
  (match f.tool_name with
   | some t => t.isEmpty || r.tool_name = t
   | Option.none => true) &&
  (match f.start_time with
   | some s => decide (s ≤ r.timestamp)
   | Option.none => true) &&
  (match f.end_time with
   | some e => decide (r.timestamp ≤ e)
   | Option.none => true) &&
  (!f.success_only || r.success)

/-- Stable insertion into a timestamp-descending list, modelling the
database's `ORDER BY timestamp DESC`. -/
def insertDesc (r : AuditRow) : List AuditRow → List AuditRow
  | [] => [r]
  | x :: xs => if r.timestamp ≤ x.timestamp then x :: insertDesc r xs else r :: x :: xs

/-- Sort rows by timestamp descending. -/
def sortByTimestampDesc (l : List AuditRow) : List AuditRow :=
  l.foldr insertDesc []

/-- `AuditLogger.query`: empty when uninitialized; filters, orders by
timestamp descending, caps at `limit`; any storage failure (the failure
flag, or the negative `LIMIT` the database rejects) is caught and yields the
empty list. -/
def auditQuery (st : AuditState) (f : QueryFilters) (limit : Int) : List AuditRow :=
  if !st.initialized then []
  else if st.queryFails || limit < 0 then []
  else (sortByTimestampDesc (st.rows.filter (rowMatches f))).take limit.toNat

/-- `AuditLogger.query` with `limit` left at its declared default
(`limit: int = 100`). -/
def auditQueryDefault (st : AuditState) (f : QueryFilters) : List AuditRow :=
  auditQuery st f 100

/-! ## Dispatcher (`call_tool` in `src/server.py`) -/

/-- The process-wide toggles the dispatcher reads. -/
structure Settings where
  auth_enabled : Bool
  audit_enabled : Bool

/-- The outcome of awaiting one external tool collaborator: a returned
value or a raised exception with its `str(e)` text. -/
inductive ExecOutcome where
  | ok (v : PyVal)
  | fault (msg : String)

/-- The static tool-name → required-capability table. -/
def tool_permission_map : List (String × String) :=
  [("sql_query", "sql_query"),
   ("database_schema", "sql_query"),
   ("web_search", "search"),
   ("weather", "weather"),
   ("geocode_location", "geocoding"),
   ("view_audit_log", "view_audit")]

/-- Look up the required permission for a tool name (`dict.get`). -/
def requiredPermission (name : String) : Option String :=
  ((tool_permission_map.find? (fun e => e.1 = name)).map (fun e => e.2))

/-- The five branches that await an external tool collaborator. -/
def externalTools : List String :=
  ["sql_query", "database_schema", "web_search", "weather", "geocode_location"]

/-- The uniform error payload `{error: true, code: ..., message: ...}`. -/
def errDict (code msg : String) : PyVal :=
  .dict [("error", .bool true), ("code", .str code), ("message", .str msg)]

/-- `AuditEntry.model_dump()` of a stored row, as assembled by the
`view_audit_log` branch. -/
def rowToPy (r : AuditRow) : PyVal :=
  .dict [("id", .str r.id),
         ("timestamp", .int r.timestamp),
         ("user_id", .str r.user_id),
         ("user_role", .str r.user_role),
         ("tool_name", .str r.tool_name),
         ("input_data", .dict r.input_data),
         ("output_summary", .str r.output_summary),
         ("success", .bool r.success),
         ("error_message", r.error_message.getD .none),
         ("execution_time_ms", .int r.execution_time_ms),
         ("ip_address", (r.ip_address.map PyVal.str).getD .none)]

/-- The result dict of the `view_audit_log` branch. -/
def viewAuditDict (entries : List AuditRow) : PyVal :=
  .dict [("success", .bool true),
         ("entries", .list (entries.map rowToPy)),
         ("count", .int entries.length)]

/-- `isinstance(result, dict) and result.get("error")`. -/
def isErrorFlagged : PyVal → Bool
  | .dict es => (dictGet es "error").elim false PyVal.truthy
  | _ => false

/-- The dispatcher's response: a structured `AUTH_ERROR` text or the
JSON-serialized result payload. -/
inductive Response where
  | authError (msg : String)
  | payload (v : PyVal)

/-- Everything one `call_tool` invocation did, for stating the pipeline's
temporal properties: the response, whether `authenticate` and `authorize`
ran, whether the execution phase was reached, whether an external tool
collaborator was awaited, how many times `AuditSink.log` was called, and
the audit sink's final state. -/
structure CallResult where
  response : Response
  authCalled : Bool
  authorizeCalled : Bool
  executed : Bool
  toolInvoked : Bool
  logCalls : Nat
  auditState : AuditState

/-- The execution phase of `call_tool` (the `try:` dispatch over tool
names), returning the assigned `result`, `success` and `error_message`
before normalization. -/
def executePhase (exec : String → List (String × PyVal) → ExecOutcome)
    (st : AuditState) (name : String) (args : List (String × PyVal)) :
    PyVal × Bool × Option PyVal :=
  if name ∈ externalTools then
    match exec name args with
    | .ok v => (v, true, Option.none)
    | .fault m => (errDict "EXECUTION_ERROR" m, false, some (.str m))
  else if name = "view_audit_log" then
    let entries := auditQuery st
      { tool_name := pyGetStr args "tool_name" }
      (pyGetInt args "limit" 20)
    (viewAuditDict entries, true, Option.none)
  else
    (errDict "UNKNOWN_TOOL" ("Unknown tool: " ++ name), false, Option.none)

/-- The authenticate step of `call_tool`: an explicit auth-disabled branch
builds the anonymous admin context without calling the authenticator; the
returned flag records whether `authenticate` ran. -/
def authPhase (hash : String → String) (settings : Settings) (cache : KeyCache)
    (api_key : Option String) : Except String (AuthContext × Bool) :=
  if settings.auth_enabled then
    (authenticate hash true cache api_key).map (fun ctx => (ctx, true))
  else
    .ok (⟨"anonymous", .admin, ""⟩, false)

/-- The authorize step of `call_tool`: `authorize` runs only when the tool
name maps to a required permission. -/
def authzPhase (ctx : AuthContext) (name : String) : Except String Bool :=
  match requiredPermission name with
  | some p => authorize ctx.role p
  | Option.none => .ok true

/-- `str(result)[:500] if result else "No result"` (line 311 of
`src/server.py`). -/
def dispatchSummary (pyStr : PyVal → String) (result : PyVal) : String :=
  if result.truthy then pyTake (pyStr result) 500 else "No result"

/-- `result.get("message", "Unknown error")` on the normalization path. -/
def normalizedErrMsg (result : PyVal) : PyVal :=
  dictGetD (match result with | .dict es => es | _ => []) "message"
    (.str "Unknown error")

/-- The record returned when `authenticate` raises. -/
def authFailRecord (st : AuditState) (e : String) : CallResult :=
  { response := .authError e
    authCalled := true
    authorizeCalled := false
    executed := false
    toolInvoked := false
    logCalls := 0
    auditState := st }

/-- The record returned when `authorize` raises. -/
def authzFailRecord (st : AuditState) (e : String) (authCalled : Bool) : CallResult :=
  { response := .authError e
    authCalled := authCalled
    authorizeCalled := true
    executed := false
    toolInvoked := false
    logCalls := 0
    auditState := st }

/-- The execute → normalize → audit → respond tail of `call_tool`, reached
after authentication and authorization both pass. -/
def execRecord (pyStr : PyVal → String) (settings : Settings) (st : AuditState)
    (exec : String → List (String × PyVal) → ExecOutcome)
    (newId : String) (now : Nat) (execTime : Nat)
    (name : String) (args : List (String × PyVal))
    (ctx : AuthContext) (authCalled : Bool) : CallResult :=
  let exres := executePhase exec st name args
  let result := exres.1
  -- normalize: an error-flagged dict forces failure
  let success := if isErrorFlagged result then false else exres.2.1
  let error_message :=
    if isErrorFlagged result then some (normalizedErrMsg result) else exres.2.2
  -- audit
  let audited :=
    if settings.audit_enabled then
      (auditLog st newId now ctx.user_id ctx.role name
        args (dispatchSummary pyStr result) success execTime error_message
        Option.none, 1)
    else ((st, Option.none), 0)
  { response := .payload result
    authCalled := authCalled
    authorizeCalled := (requiredPermission name).isSome
    executed := true
    toolInvoked := name ∈ externalTools
    logCalls := audited.2
    auditState := audited.1.1 }

/-- `call_tool` in `src/server.py`: authenticate, authorize, execute,
normalize the outcome, audit, respond.  Parameters standing for effects:
`hash` the key digest, `pyStr` Python `str()` on result values, `exec` the
external tool collaborators, `newId` the fresh uuid, `now` the audit
timestamp, `execTime` the measured elapsed milliseconds. -/
def callTool (hash : String → String) (pyStr : PyVal → String)
    (settings : Settings) (cache : KeyCache) (st : AuditState)
    (exec : String → List (String × PyVal) → ExecOutcome)
    (newId : String) (now : Nat) (execTime : Nat)
    (name : String) (arguments : List (String × PyVal)) : CallResult :=
  let args := removeKey arguments "_api_key"
  match authPhase hash settings cache (pyGetStr arguments "_api_key") with
  | .error e => authFailRecord st e
  | .ok (auth_context, authCalled) =>
    match authzPhase auth_context name with
    | .error e => authzFailRecord st e authCalled
    | .ok _ =>
      execRecord pyStr settings st exec newId now execTime name args
        auth_context authCalled

/-! ## Theorems -/

/-- C1: for every role and capability, `authorize` returns `true` exactly
when the capability is in `ROLE_PERMISSIONS` for the role, and otherwise
raises an `AuthorizationError` whose message names both the role and the
capability; concretely ReadOnly lacks search and view_audit, Analyst lacks
manage_users, and Admin holds all six defined capabilities. -/
theorem C1_authorize_iff_permitted :
    (∀ (role : UserRole) (cap : String),
        (authorize role cap = .ok true ↔ cap ∈ ROLE_PERMISSIONS role) ∧
        (cap ∉ ROLE_PERMISSIONS role →
          authorize role cap = .error (forbiddenMsg role cap) ∧
          role.value.toList <:+: (forbiddenMsg role cap).toList ∧
          cap.toList <:+: (forbiddenMsg role cap).toList)) ∧
    "search" ∉ ROLE_PERMISSIONS .readonly ∧
    "view_audit" ∉ ROLE_PERMISSIONS .readonly ∧
    "manage_users" ∉ ROLE_PERMISSIONS .analyst ∧
    ROLE_PERMISSIONS .admin = allCapabilities := by
  refine ⟨fun role cap => ⟨?_, fun hnot => ⟨?_, ?_, ?_⟩⟩, by decide, by decide, by decide, rfl⟩
  · simp only [authorize]
    split
    · next h => simp [h]
    · next h => simp [h]
  · simp [authorize, hnot]
  · exact ⟨("Role " ++ sq).toList,
      (sq ++ " cannot access tool " ++ sq ++ cap ++ sq).toList,
      by simp [forbiddenMsg, String.toList, String.data_append, List.append_assoc]⟩
  · exact ⟨("Role " ++ sq ++ role.value ++ sq ++ " cannot access tool " ++ sq).toList,
      sq.toList,
      by simp [forbiddenMsg, String.toList, String.data_append, List.append_assoc]⟩

/-- C1 witness: ReadOnly may run `sql_query`; ReadOnly running `search` is
refused with the message naming the role and the capability. -/
theorem C1_authorize_iff_permitted_witness :
    authorize .readonly "sql_query" = .ok true ∧
    authorize .readonly "search" = .error (forbiddenMsg .readonly "search") := by
  refine ⟨(C1_authorize_iff_permitted.1 .readonly "sql_query").1.mpr (by decide), ?_⟩
  exact ((C1_authorize_iff_permitted.1 .readonly "search").2 (by decide)).1

/-- Sanitizing is idempotent: redacted entries stay redacted, nested
mappings are handled by induction on their size, and all other values pass
through unchanged both times. -/
theorem sanitizeInput_idem (l : List (String × PyVal)) :
    sanitizeInput (sanitizeInput l) = sanitizeInput l := by
  induction l using sanitizeInput.induct with
  | case1 => simp [sanitizeInput]
  | case2 k v rest ihv ih =>
    cases v <;> by_cases hk : isSensitiveKey k <;> simp_all [sanitizeInput]

/-- C5 counterexample: a list-valued entry under a sensitive key is not left
unchanged — it is redacted like any other value. -/
theorem C5_counterexample_list_under_sensitive_key :
    sanitizeInput [("password", PyVal.list [])] ≠ [("password", PyVal.list [])] := by
  have h : sanitizeInput [("password", PyVal.list [])] =
      [("password", PyVal.str "[REDACTED]")] := by
    simp [sanitizeInput, show isSensitiveKey "password" = true from by decide]
  rw [h]
  simp

/-- C5 (amended): `sanitize` is idempotent; on the reference input it
redacts `password` and the nested `api_key` and keeps `z`; and it never
recurses into list-typed values — a list-valued entry is left unchanged
whenever its key is not sensitive (a sensitive key redacts the whole list). -/
theorem C5_sanitize_idempotent_example_lists :
    (∀ l, sanitizeInput (sanitizeInput l) = sanitizeInput l) ∧
    sanitizeInput
        [("password", PyVal.str "x"),
         ("nested", PyVal.dict [("api_key", PyVal.str "y"), ("z", PyVal.int 1)])] =
      [("password", PyVal.str "[REDACTED]"),
       ("nested", PyVal.dict [("api_key", PyVal.str "[REDACTED]"), ("z", PyVal.int 1)])] ∧
    (∀ (k : String) (xs : List PyVal) (rest : List (String × PyVal)),
        isSensitiveKey k = false →
        sanitizeInput ((k, PyVal.list xs) :: rest) =
          (k, PyVal.list xs) :: sanitizeInput rest) := by
  refine ⟨sanitizeInput_idem, ?_, fun k xs rest hk => ?_⟩
  · simp [sanitizeInput,
      show isSensitiveKey "password" = true from by decide,
      show isSensitiveKey "nested" = false from by decide,
      show isSensitiveKey "api_key" = true from by decide,
      show isSensitiveKey "z" = false from by decide]
  · simp [sanitizeInput, hk]

/-- C9: audit failures never reach the caller — `log` returns `None` when
auditing is disabled or the sink is uninitialized, and a persistence
failure is caught and yields `None` with the state unchanged; `query`
returns the empty list when uninitialized, and a storage failure is caught
and also yields the empty list. -/
theorem C9_audit_failures_never_reach_caller :
    (∀ (st : AuditState) newId now uid role tool input out succ t err ip,
        st.audit_enabled = false ∨ st.initialized = false →
        auditLog st newId now uid role tool input out succ t err ip =
          (st, Option.none)) ∧
    (∀ (st : AuditState) newId now uid role tool input out succ t err ip,
        st.persistFails = true →
        auditLog st newId now uid role tool input out succ t err ip =
          (st, Option.none)) ∧
    (∀ (st : AuditState) f limit, st.initialized = false →
        auditQuery st f limit = []) ∧
    (∀ (st : AuditState) f limit, st.queryFails = true →
        auditQuery st f limit = []) := by
  refine ⟨?_, ?_, ?_, ?_⟩
  · rintro st newId now uid role tool input out succ t err ip (h | h) <;>
      simp [auditLog, h]
  · intro st newId now uid role tool input out succ t err ip h
    simp only [auditLog, persistRow, h, if_true]
    split <;> rfl
  · intro st f limit h
    simp [auditQuery, h]
  · intro st f limit h
    simp only [auditQuery, h]
    split <;> simp

/-- C9 witness: the four read/write failure modes at concrete states. -/
theorem C9_audit_failures_never_reach_caller_witness :
    auditLog ⟨false, true, false, false, []⟩ "i" 0 "u" .admin "t" [] "o" true 0
        Option.none Option.none = (⟨false, true, false, false, []⟩, Option.none) ∧
    auditLog ⟨true, true, true, false, []⟩ "i" 0 "u" .admin "t" [] "o" true 0
        Option.none Option.none = (⟨true, true, true, false, []⟩, Option.none) ∧
    auditQuery ⟨true, false, false, false, []⟩ {} 5 = [] ∧
    auditQuery ⟨true, true, false, true, []⟩ {} 5 = [] :=
  ⟨C9_audit_failures_never_reach_caller.1 _ "i" 0 "u" .admin "t" [] "o" true 0
      Option.none Option.none (Or.inl rfl),
   C9_audit_failures_never_reach_caller.2.1 _ "i" 0 "u" .admin "t" [] "o" true 0
      Option.none Option.none rfl,
   C9_audit_failures_never_reach_caller.2.2.1 _ {} 5 rfl,
   C9_audit_failures_never_reach_caller.2.2.2 _ {} 5 rfl⟩

/-- Inserting into a timestamp-descending sorted list is a permutation of
consing. -/
theorem insertDesc_perm (r : AuditRow) (l : List AuditRow) :
    List.Perm (insertDesc r l) (r :: l) := by
  induction l with
  | nil => exact List.Perm.refl _
  | cons x xs ih =>
    simp only [insertDesc]
    split
    · exact (ih.cons x).trans (List.Perm.swap _ _ _)
    · exact List.Perm.refl _

/-- Sorting by timestamp descending permutes the rows. -/
theorem sortByTimestampDesc_perm (l : List AuditRow) :
    List.Perm (sortByTimestampDesc l) l := by
  induction l with
  | nil => exact List.Perm.refl _
  | cons x xs ih =>
    exact (insertDesc_perm x (sortByTimestampDesc xs)).trans (ih.cons x)

/-- Insertion preserves the timestamp-descending pairwise order. -/
theorem insertDesc_pairwise {l : List AuditRow} (r : AuditRow)
    (h : l.Pairwise (fun a b => b.timestamp ≤ a.timestamp)) :
    (insertDesc r l).Pairwise (fun a b => b.timestamp ≤ a.timestamp) := by
  induction l with
  | nil => simp [insertDesc]
  | cons x xs ih =>
    rcases List.pairwise_cons.mp h with ⟨hx, hxs⟩
    simp only [insertDesc]
    split
    · next hle =>
      refine List.pairwise_cons.mpr ⟨?_, ih hxs⟩
      intro b hb
      rcases List.mem_cons.mp ((insertDesc_perm r xs).mem_iff.mp hb) with hb1 | hb1
      · subst hb1; exact hle
      · exact hx b hb1
    · next hle =>
      push_neg at hle
      refine List.pairwise_cons.mpr ⟨?_, h⟩
      intro b hb
      rcases List.mem_cons.mp hb with hb1 | hb1
      · subst hb1; exact le_of_lt hle
      · exact (hx b hb1).trans (le_of_lt hle)

/-- The sorted rows are pairwise timestamp-descending. -/
theorem sortByTimestampDesc_pairwise (l : List AuditRow) :
    (sortByTimestampDesc l).Pairwise (fun a b => b.timestamp ≤ a.timestamp) := by
  induction l with
  | nil => simp [sortByTimestampDesc]
  | cons x xs ih => exact insertDesc_pairwise x ih

/-- C8 counterexample: with 150 matching rows stored, a caller-supplied
limit of 150 returns 150 entries — more than the supposed configured
maximum of 100.  The defaults of 100 and 20 are only defaults, not caps. -/
theorem C8_counterexample_limit_not_capped :
    (auditQuery
        ⟨true, true, false, false,
          List.replicate 150 ⟨"i", 0, "u", "admin", "t", [], "o", true,
            Option.none, 0, Option.none⟩⟩ {} 150).length = 150 ∧
    100 < 150 := by
  refine ⟨?_, by decide⟩
  have hall : ∀ r ∈ List.replicate 150
      (⟨"i", 0, "u", "admin", "t", [], "o", true, Option.none, 0,
        Option.none⟩ : AuditRow), rowMatches {} r = true := by
    intro r _
    simp [rowMatches]
  simp only [auditQuery]
  norm_num
  rw [(sortByTimestampDesc_perm _).length_eq, List.filter_eq_self.mpr hall,
    List.length_replicate]
  decide

/-- C8 (amended): `limit` is the caller's value, 100 is only the declared
default of `AuditLogger.query` and 20 only the dispatcher's default for the
recent-activity view; the result count never exceeds the caller-supplied
(or defaulted) limit, and no configured maximum is enforced beyond it. -/
theorem C8_query_bounded_by_callers_limit :
    (∀ (st : AuditState) (f : QueryFilters) (limit : Int),
        (auditQuery st f limit).length ≤ limit.toNat) ∧
    (∀ (st : AuditState) (f : QueryFilters),
        auditQueryDefault st f = auditQuery st f 100) ∧
    (∀ args, dictGet args "limit" = Option.none → pyGetInt args "limit" 20 = 20) := by
  refine ⟨?_, fun st f => rfl, ?_⟩
  · intro st f limit
    simp only [auditQuery]
    split
    · simp
    · split
      · simp
      · simpa using Nat.min_le_left _ _
  · intro args h
    simp [pyGetInt, h]

/-- C8 witness: the bound and the defaults at concrete inputs. -/
theorem C8_query_bounded_by_callers_limit_witness :
    (auditQuery ⟨true, true, false, false, []⟩ {} 3).length ≤ (3 : Int).toNat ∧
    auditQueryDefault ⟨true, true, false, false, []⟩ {} =
      auditQuery ⟨true, true, false, false, []⟩ {} 100 ∧
    pyGetInt [] "limit" 20 = 20 :=
  ⟨C8_query_bounded_by_callers_limit.1 _ {} 3,
   C8_query_bounded_by_callers_limit.2.1 _ {},
   C8_query_bounded_by_callers_limit.2.2 [] rfl⟩

/-- C6 counterexample: two failures of the claim as stated.  First, the
queried entry's fields are not all equal to the logged values up to output
truncation — `input_data` comes back sanitized, so logging a mapping with a
sensitive key returns a different mapping.  Second, two entries logged with
the same timestamp come back with equal timestamps, so the query results
are not strictly ordered by timestamp descending. -/
theorem C6_counterexample_sanitized_input_and_tied_timestamps :
    ((auditQuery
        (auditLog ⟨true, true, false, false, []⟩ "id1" 5 "u" .admin "sql_query"
          [("password", PyVal.str "x")] "out" true 7 Option.none Option.none).1
        {} 100).map AuditRow.input_data = [[("password", PyVal.str "[REDACTED]")]] ∧
     [("password", PyVal.str "[REDACTED]")] ≠ [("password", PyVal.str "x")]) ∧
    ((auditQuery
        (auditLog
          (auditLog ⟨true, true, false, false, []⟩ "id1" 5 "u" .admin "sql_query"
            [] "out" true 7 Option.none Option.none).1
          "id2" 5 "u" .admin "sql_query" [] "out" true 7
          Option.none Option.none).1
        {} 100).map AuditRow.timestamp = [5, 5] ∧
     ¬ (auditQuery
        (auditLog
          (auditLog ⟨true, true, false, false, []⟩ "id1" 5 "u" .admin "sql_query"
            [] "out" true 7 Option.none Option.none).1
          "id2" 5 "u" .admin "sql_query" [] "out" true 7
          Option.none Option.none).1
        {} 100).Pairwise (fun a b => b.timestamp < a.timestamp)) := by
  refine ⟨⟨?_, by simp⟩, ?_, ?_⟩
  · simp [auditLog, auditRowOf, persistRow, auditQuery, rowMatches,
      sortByTimestampDesc, insertDesc, sanitizeInput,
      show isSensitiveKey "password" = true from by decide]
  · simp [auditLog, auditRowOf, persistRow, auditQuery, rowMatches,
      sortByTimestampDesc, insertDesc, sanitizeInput]
  · simp [auditLog, auditRowOf, persistRow, auditQuery, rowMatches,
      sortByTimestampDesc, insertDesc, sanitizeInput, List.pairwise_cons]

/-- C6 (amended): with the sink enabled, initialized and healthy, a `log`
followed by a `query` whose filters match the new entry and nothing already
stored returns exactly that one entry, its fields equal to the logged
values except `output_summary` truncated to 1000 characters and
`input_data` sanitized (see `auditRowOf`); query results are always ordered
by timestamp descending, strictly so when the stored timestamps are
pairwise distinct. -/
theorem C6_log_then_query_roundtrip :
    (∀ (st : AuditState) (newId : String) (now : Nat) (uid : String)
        (role : UserRole) (tool : String) (input : List (String × PyVal))
        (out : String) (succ : Bool) (t : Nat) (err : Option PyVal)
        (ip : Option String) (f : QueryFilters) (limit : Int),
      st.audit_enabled = true → st.initialized = true → st.persistFails = false →
      st.queryFails = false → 1 ≤ limit →
      rowMatches f (auditRowOf newId now uid role tool input out succ t err ip) = true →
      (∀ r ∈ st.rows, rowMatches f r = false) →
      auditQuery (auditLog st newId now uid role tool input out succ t err ip).1
          f limit =
        [auditRowOf newId now uid role tool input out succ t err ip]) ∧
    (∀ (st : AuditState) (f : QueryFilters) (limit : Int),
      (auditQuery st f limit).Pairwise (fun a b => b.timestamp ≤ a.timestamp)) ∧
    (∀ (st : AuditState) (f : QueryFilters) (limit : Int),
      st.rows.Pairwise (fun a b => a.timestamp ≠ b.timestamp) →
      (auditQuery st f limit).Pairwise (fun a b => b.timestamp < a.timestamp)) := by
  refine ⟨?_, ?_, ?_⟩
  · intro st newId now uid role tool input out succ t err ip f limit
      hen hinit hpf hqf hlim hmatch hothers
    have hlog : (auditLog st newId now uid role tool input out succ t err ip).1 =
        { st with rows := st.rows ++
            [auditRowOf newId now uid role tool input out succ t err ip] } := by
      simp [auditLog, persistRow, hen, hinit, hpf]
    rw [hlog]
    have hneg : ¬ limit < 0 := by omega
    simp only [auditQuery, hinit, hqf, hneg]
    norm_num
    rw [List.filter_eq_nil_iff.mpr (by intro a ha; simp [hothers a ha])]
    simp only [List.nil_append, List.filter_cons, hmatch, if_true,
      List.filter_nil, sortByTimestampDesc, List.foldr, insertDesc]
    obtain ⟨m, hm⟩ : ∃ m, limit.toNat = m + 1 := ⟨limit.toNat - 1, by omega⟩
    rw [hm]
    simp
  · intro st f limit
    simp only [auditQuery]
    split
    · simp
    · split
      · simp
      · exact List.Pairwise.sublist (List.take_sublist _ _)
          (sortByTimestampDesc_pairwise _)
  · intro st f limit hdist
    simp only [auditQuery]
    split
    · simp
    · split
      · simp
      · have h1 := sortByTimestampDesc_pairwise (st.rows.filter (rowMatches f))
        have h2 : (st.rows.filter (rowMatches f)).Pairwise
            (fun a b => a.timestamp ≠ b.timestamp) :=
          List.Pairwise.sublist (List.filter_sublist _) hdist
        have h3 : (sortByTimestampDesc (st.rows.filter (rowMatches f))).Pairwise
            (fun a b => a.timestamp ≠ b.timestamp) :=
          ((sortByTimestampDesc_perm _).pairwise_iff
            (fun h => Ne.symm h)).mpr h2
        have h4 : (sortByTimestampDesc (st.rows.filter (rowMatches f))).Pairwise
            (fun a b => b.timestamp < a.timestamp) :=
          (h1.and h3).imp (fun h => lt_of_le_of_ne h.1 h.2.symm)
        exact List.Pairwise.sublist (List.take_sublist _ _) h4

/-- C6 witness: a concrete log followed by a fully matching query on an
empty sink returns exactly the one truncated-and-sanitized row. -/
theorem C6_log_then_query_roundtrip_witness :
    auditQuery (auditLog ⟨true, true, false, false, []⟩ "i" 1 "u" .admin "t"
        [] "o" true 2 Option.none Option.none).1 {} 100 =
      [auditRowOf "i" 1 "u" .admin "t" [] "o" true 2 Option.none Option.none] :=
  C6_log_then_query_roundtrip.1 ⟨true, true, false, false, []⟩ "i" 1 "u" .admin
    "t" [] "o" true 2 Option.none Option.none {} 100 rfl rfl rfl rfl
    (by decide) rfl (by simp)

/-- C5 witness: the amended list clause at a concrete non-sensitive key. -/
theorem C5_sanitize_idempotent_example_lists_witness :
    sanitizeInput [("items", PyVal.list [PyVal.dict [("password", PyVal.str "x")]])] =
      [("items", PyVal.list [PyVal.dict [("password", PyVal.str "x")]])] := by
  have h := C5_sanitize_idempotent_example_lists.2.2 "items"
    [PyVal.dict [("password", PyVal.str "x")]] [] (by decide)
  simpa [sanitizeInput] using h

/-- A match at the start is no longer than the text. -/
theorem startsWithChars_length :
    ∀ {n h : List Char}, startsWithChars n h = true → n.length ≤ h.length
  | [], _, _ => Nat.zero_le _
  | a :: as, [], hs => by simp [startsWithChars] at hs
  | a :: as, b :: bs, hs => by
    simp only [startsWithChars, Bool.and_eq_true] at hs
    simpa using startsWithChars_length hs.2

/-- A substring is no longer than the text containing it. -/
theorem containsChars_length :
    ∀ {n h : List Char}, containsChars n h = true → n.length ≤ h.length
  | n, [], hc => by
    simp only [containsChars, List.isEmpty_iff] at hc
    simp [hc]
  | n, b :: bs, hc => by
    simp only [containsChars, Bool.or_eq_true] at hc
    rcases hc with hc | hc
    · exact startsWithChars_length hc
    · exact (containsChars_length hc).trans (by simp)

/-- C7 counterexample: a configured credential of 8 or fewer characters is
authenticated successfully, yet the masked identity contains the full
secret — `"short"` masks to `"short..."`. -/
theorem C7_counterexample_short_key_leaks :
    authenticate (fun s => s ++ "#") true
        (loadApiKeys (fun s => s ++ "#") [("short", "Admin")]) (some "short") =
      .ok ⟨"short...", .admin, "short#"⟩ ∧
    containsChars "short".toList "short...".toList = true := by
  exact ⟨rfl, by decide⟩

/-- C7 (amended): with an injective digest, every successfully
authenticated credential yields a context whose identity is the first 8
characters of the credential followed by `"..."`; for credentials of at
least 12 characters (generated keys have 43) the identity cannot contain
the full secret, though shorter credentials may leak whole; and the key
cache retains only the fingerprint, the masked identity and the role —
never the raw credential as a stored field. -/
theorem C7_authenticate_masks_credential (hash : String → String)
    (cfg : List (String × String)) (key : String) (ctx : AuthContext)
    (hinj : Function.Injective hash)
    (hok : authenticate hash true (loadApiKeys hash cfg) (some key) = .ok ctx) :
    ctx.user_id = pyTake key 8 ++ "..." ∧
    (12 ≤ key.length → containsChars key.toList ctx.user_id.toList = false) ∧
    (∀ e ∈ loadApiKeys hash cfg, ∃ kr ∈ cfg,
        e.1 = hash kr.1 ∧ e.2.1 = pyTake kr.1 8 ++ "..." ∧
        roleOfString (pyLower kr.2) = some e.2.2) := by
  have hcache : ∀ e ∈ loadApiKeys hash cfg, ∃ kr ∈ cfg,
      e.1 = hash kr.1 ∧ e.2.1 = pyTake kr.1 8 ++ "..." ∧
      roleOfString (pyLower kr.2) = some e.2.2 := by
    intro e he
    rcases List.mem_filterMap.mp he with ⟨kr, hkr, hmap⟩
    cases hro : roleOfString (pyLower kr.2) with
    | none => rw [hro] at hmap; simp at hmap
    | some ro =>
      rw [hro] at hmap
      have he2 : (hash kr.1, pyTake kr.1 8 ++ "...", ro) = e := by
        simpa using hmap
      subst he2
      exact ⟨kr, hkr, rfl, rfl, hro⟩
  have huid : ctx.user_id = pyTake key 8 ++ "..." := by
    simp only [authenticate, Bool.not_true, Bool.false_eq_true, if_false] at hok
    by_cases hemp : key.isEmpty
    · simp [hemp] at hok
    · simp only [hemp, if_false] at hok
      cases hf : (loadApiKeys hash cfg).find?
          (fun e => e.1 = hash ((some key).getD "")) with
      | none => rw [hf] at hok; simp at hok
      | some e =>
        rw [hf] at hok
        injection hok with hok
        have hmem := List.mem_of_find?_eq_some hf
        have hpred := List.find?_some hf
        simp only [decide_eq_true_eq, Option.getD_some] at hpred
        rcases hcache e hmem with ⟨kr, _, h1, h2, _⟩
        have hkey : kr.1 = key := hinj (by rw [← h1, hpred])
        rw [← hok]
        simpa [hkey] using h2
  refine ⟨huid, ?_, hcache⟩
  intro hlen
  cases hcc : containsChars key.toList ctx.user_id.toList with
  | false => rfl
  | true =>
    exfalso
    have hle := containsChars_length hcc
    have hlist : ctx.user_id.toList = key.toList.take 8 ++ "...".toList := by
      rw [huid]
      simp [pyTake, String.toList, String.data_append]
    rw [hlist] at hle
    have h8 : (key.toList.take 8).length ≤ 8 := by
      simp [List.length_take]
    have hkl : key.toList.length = key.length := rfl
    simp only [List.length_append] at hle
    have h3 : ("...".toList).length = 3 := by decide
    omega

/-- C7 witness: a 12-character credential authenticates to the masked
8-character-plus-ellipsis identity, which does not contain the secret. -/
theorem C7_authenticate_masks_credential_witness :
    (⟨"abcdefgh...", .analyst, "abcdefghijkl"⟩ : AuthContext).user_id =
      pyTake "abcdefghijkl" 8 ++ "..." ∧
    containsChars "abcdefghijkl".toList
      (⟨"abcdefgh...", .analyst, "abcdefghijkl"⟩ : AuthContext).user_id.toList = false :=
  ⟨(C7_authenticate_masks_credential (fun s => s) [("abcdefghijkl", "analyst")]
      "abcdefghijkl" ⟨"abcdefgh...", .analyst, "abcdefghijkl"⟩
      Function.injective_id rfl).1,
   (C7_authenticate_masks_credential (fun s => s) [("abcdefghijkl", "analyst")]
      "abcdefghijkl" ⟨"abcdefgh...", .analyst, "abcdefghijkl"⟩
      Function.injective_id rfl).2.1 (by decide)⟩

/-- The dispatcher's `EXECUTION_ERROR` and `UNKNOWN_TOOL` payloads carry a
truthy error flag. -/
theorem isErrorFlagged_errDict (code msg : String) :
    isErrorFlagged (errDict code msg) = true := by
  simp [isErrorFlagged, errDict, dictGet, List.find?, PyVal.truthy]

/-- Normalization reads the `message` field of an error payload. -/
theorem normalizedErrMsg_errDict (code msg : String) :
    normalizedErrMsg (errDict code msg) = .str msg := by
  simp [normalizedErrMsg, errDict, dictGetD, dictGet, List.find?]

/-- C2: whenever authentication or authorization fails, the dispatcher
responds with the structured `AUTH_ERROR` immediately: the execution phase
is not reached, no external tool is invoked, `AuditSink.log` is not called
and the audit store is unchanged. -/
theorem C2_auth_failure_short_circuits (hash : String → String)
    (pyStr : PyVal → String) (settings : Settings) (cache : KeyCache)
    (st : AuditState) (exec : String → List (String × PyVal) → ExecOutcome)
    (newId : String) (now : Nat) (execTime : Nat)
    (name : String) (arguments : List (String × PyVal)) :
    (∀ e, settings.auth_enabled = true →
      authenticate hash true cache (pyGetStr arguments "_api_key") = .error e →
      (callTool hash pyStr settings cache st exec newId now execTime name
          arguments).response = .authError e ∧
      (callTool hash pyStr settings cache st exec newId now execTime name
          arguments).toolInvoked = false ∧
      (callTool hash pyStr settings cache st exec newId now execTime name
          arguments).executed = false ∧
      (callTool hash pyStr settings cache st exec newId now execTime name
          arguments).logCalls = 0 ∧
      (callTool hash pyStr settings cache st exec newId now execTime name
          arguments).auditState = st) ∧
    (∀ ctx ac e,
      authPhase hash settings cache (pyGetStr arguments "_api_key") = .ok (ctx, ac) →
      authzPhase ctx name = .error e →
      (callTool hash pyStr settings cache st exec newId now execTime name
          arguments).response = .authError e ∧
      (callTool hash pyStr settings cache st exec newId now execTime name
          arguments).toolInvoked = false ∧
      (callTool hash pyStr settings cache st exec newId now execTime name
          arguments).executed = false ∧
      (callTool hash pyStr settings cache st exec newId now execTime name
          arguments).logCalls = 0 ∧
      (callTool hash pyStr settings cache st exec newId now execTime name
          arguments).auditState = st) := by
  constructor
  · intro e hen hae
    simp [callTool, authPhase, hen, hae, authFailRecord, Except.map]
  · intro ctx ac e hA hZ
    simp [callTool, hA, hZ, authzFailRecord]

/-- C2 witness: a missing API key with auth enabled responds `AUTH_ERROR`
and leaves the audit store untouched. -/
theorem C2_auth_failure_short_circuits_witness :
    (callTool (fun s => s) (fun _ => "") ⟨true, true⟩ []
        ⟨true, true, false, false, []⟩ (fun _ _ => .ok .none) "id" 0 0
        "sql_query" []).response = .authError "API key required" ∧
    (callTool (fun s => s) (fun _ => "") ⟨true, true⟩ []
        ⟨true, true, false, false, []⟩ (fun _ _ => .ok .none) "id" 0 0
        "sql_query" []).toolInvoked = false ∧
    (callTool (fun s => s) (fun _ => "") ⟨true, true⟩ []
        ⟨true, true, false, false, []⟩ (fun _ _ => .ok .none) "id" 0 0
        "sql_query" []).executed = false ∧
    (callTool (fun s => s) (fun _ => "") ⟨true, true⟩ []
        ⟨true, true, false, false, []⟩ (fun _ _ => .ok .none) "id" 0 0
        "sql_query" []).logCalls = 0 ∧
    (callTool (fun s => s) (fun _ => "") ⟨true, true⟩ []
        ⟨true, true, false, false, []⟩ (fun _ _ => .ok .none) "id" 0 0
        "sql_query" []).auditState = ⟨true, true, false, false, []⟩ :=
  (C2_auth_failure_short_circuits (fun s => s) (fun _ => "") ⟨true, true⟩ []
      ⟨true, true, false, false, []⟩ (fun _ _ => .ok .none) "id" 0 0
      "sql_query" []).1 "API key required" rfl rfl

/-- C3 counterexample: an unknown tool name does not short-circuit before
authentication — with auth enabled and a bad key, `authenticate` runs and
the response is the `AUTH_ERROR`, not an `UnknownTool` outcome. -/
theorem C3_counterexample_auth_runs_before_unknown_tool :
    requiredPermission "bogus_tool" = Option.none ∧
    (callTool (fun s => s) (fun _ => "") ⟨true, false⟩ []
        ⟨false, false, false, false, []⟩ (fun _ _ => .ok .none) "id" 0 0
        "bogus_tool" [("_api_key", PyVal.str "k")]).authCalled = true ∧
    (callTool (fun s => s) (fun _ => "") ⟨true, false⟩ []
        ⟨false, false, false, false, []⟩ (fun _ _ => .ok .none) "id" 0 0
        "bogus_tool" [("_api_key", PyVal.str "k")]).response =
      .authError "Invalid API key" :=
  ⟨rfl, rfl, rfl⟩

/-- C3 (amended): unknown tool names produce the `UNKNOWN_TOOL` outcome in
the execution phase, after authentication: `authenticate` runs first
whenever auth is enabled; with the auth phase passed, no permission is
required so `authorize` is skipped, no external tool is invoked, and the
dispatcher returns the `UNKNOWN_TOOL` error payload. -/
theorem C3_unknown_tool_resolved_after_auth (hash : String → String)
    (pyStr : PyVal → String) (settings : Settings) (cache : KeyCache)
    (st : AuditState) (exec : String → List (String × PyVal) → ExecOutcome)
    (newId : String) (now : Nat) (execTime : Nat)
    (name : String) (arguments : List (String × PyVal))
    (hperm : requiredPermission name = Option.none)
    (hauth : settings.auth_enabled = true →
      ∃ ctx, authenticate hash true cache (pyGetStr arguments "_api_key") = .ok ctx) :
    (callTool hash pyStr settings cache st exec newId now execTime name
        arguments).response =
      .payload (errDict "UNKNOWN_TOOL" ("Unknown tool: " ++ name)) ∧
    (callTool hash pyStr settings cache st exec newId now execTime name
        arguments).authCalled = settings.auth_enabled ∧
    (callTool hash pyStr settings cache st exec newId now execTime name
        arguments).authorizeCalled = false ∧
    (callTool hash pyStr settings cache st exec newId now execTime name
        arguments).toolInvoked = false ∧
    (callTool hash pyStr settings cache st exec newId now execTime name
        arguments).executed = true := by
  have hview : name ≠ "view_audit_log" := by
    intro h
    subst h
    simp [requiredPermission, tool_permission_map] at hperm
  have hext : name ∉ externalTools := by
    intro hmem
    simp only [externalTools, List.mem_cons, List.mem_singleton] at hmem
    rcases hmem with rfl | rfl | rfl | rfl | rfl | h
    · simp [requiredPermission, tool_permission_map] at hperm
    · simp [requiredPermission, tool_permission_map] at hperm
    · simp [requiredPermission, tool_permission_map] at hperm
    · simp [requiredPermission, tool_permission_map] at hperm
    · simp [requiredPermission, tool_permission_map] at hperm
    · simp at h
  cases hsen : settings.auth_enabled with
  | true =>
    obtain ⟨ctx, hctx⟩ := hauth hsen
    simp [callTool, authPhase, hsen, hctx, authzPhase, hperm, execRecord,
      executePhase, hext, hview, Except.map]
  | false =>
    simp [callTool, authPhase, hsen, authzPhase, hperm, execRecord,
      executePhase, hext, hview]

/-- C3 witness: an unknown tool with auth disabled yields the
`UNKNOWN_TOOL` payload with authorize skipped and no tool invoked. -/
theorem C3_unknown_tool_resolved_after_auth_witness :
    (callTool (fun s => s) (fun _ => "") ⟨false, false⟩ []
        ⟨false, false, false, false, []⟩ (fun _ _ => .ok .none) "id" 0 0
        "bogus_tool" []).response =
      .payload (errDict "UNKNOWN_TOOL" ("Unknown tool: " ++ "bogus_tool")) ∧
    (callTool (fun s => s) (fun _ => "") ⟨false, false⟩ []
        ⟨false, false, false, false, []⟩ (fun _ _ => .ok .none) "id" 0 0
        "bogus_tool" []).authCalled = (⟨false, false⟩ : Settings).auth_enabled ∧
    (callTool (fun s => s) (fun _ => "") ⟨false, false⟩ []
        ⟨false, false, false, false, []⟩ (fun _ _ => .ok .none) "id" 0 0
        "bogus_tool" []).authorizeCalled = false ∧
    (callTool (fun s => s) (fun _ => "") ⟨false, false⟩ []
        ⟨false, false, false, false, []⟩ (fun _ _ => .ok .none) "id" 0 0
        "bogus_tool" []).toolInvoked = false ∧
    (callTool (fun s => s) (fun _ => "") ⟨false, false⟩ []
        ⟨false, false, false, false, []⟩ (fun _ _ => .ok .none) "id" 0 0
        "bogus_tool" []).executed = true :=
  C3_unknown_tool_resolved_after_auth (fun s => s) (fun _ => "") ⟨false, false⟩
    [] ⟨false, false, false, false, []⟩ (fun _ _ => .ok .none) "id" 0 0
    "bogus_tool" [] rfl (fun h => nomatch h)

/-- Truncation bounds the length. -/
theorem pyTake_length_le (s : String) (n : Nat) : (pyTake s n).length ≤ n := by
  simp only [pyTake, String.length, String.toList]
  simpa using Nat.min_le_left n s.data.length

/-- Truncating below the bound is the identity. -/
theorem pyTake_eq_self {s : String} {n : Nat} (h : s.length ≤ n) :
    pyTake s n = s := by
  simp only [pyTake, String.toList]
  rw [List.take_of_length_le h]

/-- The summary the dispatcher hands to the sink is at most 500 characters. -/
theorem dispatchSummary_length_le (pyStr : PyVal → String) (result : PyVal) :
    (dispatchSummary pyStr result).length ≤ 500 := by
  simp only [dispatchSummary]
  split
  · exact pyTake_length_le _ _
  · decide

/-- On the executed path with auditing on and the sink healthy, `call_tool`
produces exactly the record whose audit store gained the one row built by
the sink. -/
theorem execRecord_spec (pyStr : PyVal → String) (settings : Settings)
    (st : AuditState) (exec : String → List (String × PyVal) → ExecOutcome)
    (newId : String) (now : Nat) (execTime : Nat)
    (name : String) (args : List (String × PyVal))
    (ctx : AuthContext) (ac : Bool)
    (hen : settings.audit_enabled = true) (hsen : st.audit_enabled = true)
    (hinit : st.initialized = true) (hpf : st.persistFails = false) :
    execRecord pyStr settings st exec newId now execTime name args ctx ac =
      { response := .payload (executePhase exec st name args).1
        authCalled := ac
        authorizeCalled := (requiredPermission name).isSome
        executed := true
        toolInvoked := name ∈ externalTools
        logCalls := 1
        auditState := { st with rows := st.rows ++
          [auditRowOf newId now ctx.user_id ctx.role name args
            (dispatchSummary pyStr (executePhase exec st name args).1)
            (if isErrorFlagged (executePhase exec st name args).1 then false
             else (executePhase exec st name args).2.1)
            execTime
            (if isErrorFlagged (executePhase exec st name args).1 then
               some (normalizedErrMsg (executePhase exec st name args).1)
             else (executePhase exec st name args).2.2)
            Option.none] } } := by
  simp [execRecord, auditLog, persistRow, hen, hsen, hinit, hpf]

/-- C4: every invocation that reaches the execution phase with auditing
enabled and the sink healthy persists exactly one audit entry — the store
grows by exactly that row and `AuditSink.log` runs exactly once — whether
the tool succeeds, raises, or returns an error-flagged payload; a raised
fault or an error-flagged result yields `success = false` with the
error message set (to the fault text, resp. the payload message). -/
theorem C4_exactly_one_audit_entry (hash : String → String)
    (pyStr : PyVal → String) (settings : Settings) (cache : KeyCache)
    (st : AuditState) (exec : String → List (String × PyVal) → ExecOutcome)
    (newId : String) (now : Nat) (execTime : Nat)
    (name : String) (arguments : List (String × PyVal))
    (hex : (callTool hash pyStr settings cache st exec newId now execTime name
        arguments).executed = true)
    (hen : settings.audit_enabled = true) (hsen : st.audit_enabled = true)
    (hinit : st.initialized = true) (hpf : st.persistFails = false) :
    ∃ e : AuditRow,
      (callTool hash pyStr settings cache st exec newId now execTime name
          arguments).auditState.rows = st.rows ++ [e] ∧
      (callTool hash pyStr settings cache st exec newId now execTime name
          arguments).logCalls = 1 ∧
      (e.success = false → e.error_message ≠ Option.none) ∧
      (∀ m, name ∈ externalTools →
        exec name (removeKey arguments "_api_key") = .fault m →
        e.success = false ∧ e.error_message = some (.str m)) ∧
      (∀ es, name ∈ externalTools →
        exec name (removeKey arguments "_api_key") = .ok (.dict es) →
        isErrorFlagged (.dict es) = true →
        e.success = false ∧
        e.error_message = some (dictGetD es "message" (.str "Unknown error"))) := by
  cases hA : authPhase hash settings cache (pyGetStr arguments "_api_key") with
  | error e =>
    exfalso
    simp [callTool, hA, authFailRecord] at hex
  | ok p =>
    obtain ⟨ctx, ac⟩ := p
    cases hZ : authzPhase ctx name with
    | error e =>
      exfalso
      simp [callTool, hA, hZ, authzFailRecord] at hex
    | ok b =>
      have hct : callTool hash pyStr settings cache st exec newId now execTime
          name arguments = execRecord pyStr settings st exec newId now execTime
          name (removeKey arguments "_api_key") ctx ac := by
        simp [callTool, hA, hZ]
      rw [hct, execRecord_spec pyStr settings st exec newId now execTime name
        (removeKey arguments "_api_key") ctx ac hen hsen hinit hpf]
      refine ⟨_, rfl, rfl, ?_, ?_, ?_⟩
      · intro hsucc
        by_cases hf : isErrorFlagged
            (executePhase exec st name (removeKey arguments "_api_key")).1
        · simp [auditRowOf, hf]
        · exfalso
          simp only [auditRowOf, hf, if_false] at hsucc
          by_cases hmem : name ∈ externalTools
          · cases hexec : exec name (removeKey arguments "_api_key") with
            | ok v => simp [executePhase, hmem, hexec] at hsucc
            | fault m =>
              rw [show (executePhase exec st name
                  (removeKey arguments "_api_key")).1 =
                errDict "EXECUTION_ERROR" m from by
                  simp [executePhase, hmem, hexec]] at hf
              rw [isErrorFlagged_errDict] at hf
              exact hf rfl
          · by_cases hv : name = "view_audit_log"
            · simp [executePhase, hmem, hv, externalTools] at hsucc
            · rw [show (executePhase exec st name
                  (removeKey arguments "_api_key")).1 =
                errDict "UNKNOWN_TOOL" ("Unknown tool: " ++ name) from by
                  simp [executePhase, hmem, hv]] at hf
              rw [isErrorFlagged_errDict] at hf
              exact hf rfl
      · intro m hmem hfault
        have hExe : executePhase exec st name (removeKey arguments "_api_key") =
            (errDict "EXECUTION_ERROR" m, false, some (.str m)) := by
          simp [executePhase, hmem, hfault]
        constructor
        · simp [auditRowOf, hExe, isErrorFlagged_errDict]
        · simp [auditRowOf, hExe, isErrorFlagged_errDict, normalizedErrMsg_errDict]
      · intro es hmem hok hflag
        have hExe : executePhase exec st name (removeKey arguments "_api_key") =
            (.dict es, true, Option.none) := by
          simp [executePhase, hmem, hok]
        constructor
        · simp [auditRowOf, hExe, hflag]
        · simp [auditRowOf, hExe, hflag, normalizedErrMsg]

/-- C4 witness: a healthy, audited invocation of `database_schema` (auth
disabled) persists exactly one entry. -/
theorem C4_exactly_one_audit_entry_witness :
    ∃ e : AuditRow,
      (callTool (fun s => s) (fun _ => "") ⟨false, true⟩ []
          ⟨true, true, false, false, []⟩ (fun _ _ => .ok .none) "id" 3 4
          "database_schema" []).auditState.rows = [] ++ [e] ∧
      (callTool (fun s => s) (fun _ => "") ⟨false, true⟩ []
          ⟨true, true, false, false, []⟩ (fun _ _ => .ok .none) "id" 3 4
          "database_schema" []).logCalls = 1 ∧
      (e.success = false → e.error_message ≠ Option.none) ∧
      (∀ m, "database_schema" ∈ externalTools →
        (fun (_ : String) (_ : List (String × PyVal)) => ExecOutcome.ok .none)
          "database_schema" (removeKey [] "_api_key") = .fault m →
        e.success = false ∧ e.error_message = some (.str m)) ∧
      (∀ es, "database_schema" ∈ externalTools →
        (fun (_ : String) (_ : List (String × PyVal)) => ExecOutcome.ok .none)
          "database_schema" (removeKey [] "_api_key") = .ok (.dict es) →
        isErrorFlagged (.dict es) = true →
        e.success = false ∧
        e.error_message = some (dictGetD es "message" (.str "Unknown error"))) :=
  C4_exactly_one_audit_entry (fun s => s) (fun _ => "") ⟨false, true⟩ []
    ⟨true, true, false, false, []⟩ (fun _ _ => .ok .none) "id" 3 4
    "database_schema" [] rfl rfl rfl rfl rfl

/-- C10: every audit entry the dispatcher produces stores
`str(result)[:500]` — or the literal `"No result"` for a falsy result — so
its `output_summary` is at most 500 characters and the sink's own
1000-character truncation leaves it unchanged. -/
theorem C10_output_summary_bounded (hash : String → String)
    (pyStr : PyVal → String) (settings : Settings) (cache : KeyCache)
    (st : AuditState) (exec : String → List (String × PyVal) → ExecOutcome)
    (newId : String) (now : Nat) (execTime : Nat)
    (name : String) (arguments : List (String × PyVal))
    (hex : (callTool hash pyStr settings cache st exec newId now execTime name
        arguments).executed = true)
    (hen : settings.audit_enabled = true) (hsen : st.audit_enabled = true)
    (hinit : st.initialized = true) (hpf : st.persistFails = false) :
    ∃ e : AuditRow,
      (callTool hash pyStr settings cache st exec newId now execTime name
          arguments).auditState.rows = st.rows ++ [e] ∧
      e.output_summary = dispatchSummary pyStr
        (executePhase exec st name (removeKey arguments "_api_key")).1 ∧
      e.output_summary.length ≤ 500 ∧
      pyTake e.output_summary 1000 = e.output_summary ∧
      (∀ v, name ∈ externalTools →
        exec name (removeKey arguments "_api_key") = .ok v → v.truthy = false →
        e.output_summary = "No result") ∧
      (∀ v, name ∈ externalTools →
        exec name (removeKey arguments "_api_key") = .ok v → v.truthy = true →
        e.output_summary = pyTake (pyStr v) 500) := by
  cases hA : authPhase hash settings cache (pyGetStr arguments "_api_key") with
  | error e =>
    exfalso
    simp [callTool, hA, authFailRecord] at hex
  | ok p =>
    obtain ⟨ctx, ac⟩ := p
    cases hZ : authzPhase ctx name with
    | error e =>
      exfalso
      simp [callTool, hA, hZ, authzFailRecord] at hex
    | ok b =>
      have hct : callTool hash pyStr settings cache st exec newId now execTime
          name arguments = execRecord pyStr settings st exec newId now execTime
          name (removeKey arguments "_api_key") ctx ac := by
        simp [callTool, hA, hZ]
      rw [hct, execRecord_spec pyStr settings st exec newId now execTime name
        (removeKey arguments "_api_key") ctx ac hen hsen hinit hpf]
      have hds := dispatchSummary_length_le pyStr
        (executePhase exec st name (removeKey arguments "_api_key")).1
      have hos : (auditRowOf newId now ctx.user_id ctx.role name
          (removeKey arguments "_api_key")
          (dispatchSummary pyStr
            (executePhase exec st name (removeKey arguments "_api_key")).1)
          (if isErrorFlagged
              (executePhase exec st name (removeKey arguments "_api_key")).1
           then false
           else (executePhase exec st name (removeKey arguments "_api_key")).2.1)
          execTime
          (if isErrorFlagged
              (executePhase exec st name (removeKey arguments "_api_key")).1
           then some (normalizedErrMsg
              (executePhase exec st name (removeKey arguments "_api_key")).1)
           else (executePhase exec st name (removeKey arguments "_api_key")).2.2)
          Option.none).output_summary =
        dispatchSummary pyStr
          (executePhase exec st name (removeKey arguments "_api_key")).1 := by
        simp only [auditRowOf]
        exact pyTake_eq_self (hds.trans (by norm_num))
      refine ⟨_, rfl, hos, ?_, ?_, ?_, ?_⟩
      · rw [hos]
        exact hds
      · rw [hos]
        exact pyTake_eq_self (hds.trans (by norm_num))
      · intro v hmem hok hfalse
        rw [hos, show (executePhase exec st name
            (removeKey arguments "_api_key")).1 = v from by
          simp [executePhase, hmem, hok]]
        simp [dispatchSummary, hfalse]
      · intro v hmem hok htrue
        rw [hos, show (executePhase exec st name
            (removeKey arguments "_api_key")).1 = v from by
          simp [executePhase, hmem, hok]]
        simp [dispatchSummary, htrue]

/-- C10 witness: the audited `database_schema` call stores a summary of at
most 500 characters that the 1000-character truncation leaves unchanged. -/
theorem C10_output_summary_bounded_witness :
    ∃ e : AuditRow,
      (callTool (fun s => s) (fun _ => "") ⟨false, true⟩ []
          ⟨true, true, false, false, []⟩ (fun _ _ => .ok .none) "id" 3 4
          "database_schema" []).auditState.rows = [] ++ [e] ∧
      e.output_summary = dispatchSummary (fun _ => "")
        (executePhase (fun _ _ => .ok .none) ⟨true, true, false, false, []⟩
          "database_schema" (removeKey [] "_api_key")).1 ∧
      e.output_summary.length ≤ 500 ∧
      pyTake e.output_summary 1000 = e.output_summary ∧
      (∀ v, "database_schema" ∈ externalTools →
        (fun (_ : String) (_ : List (String × PyVal)) => ExecOutcome.ok .none)
          "database_schema" (removeKey [] "_api_key") = .ok v →
        v.truthy = false → e.output_summary = "No result") ∧
      (∀ v, "database_schema" ∈ externalTools →
        (fun (_ : String) (_ : List (String × PyVal)) => ExecOutcome.ok .none)
          "database_schema" (removeKey [] "_api_key") = .ok v →
        v.truthy = true → e.output_summary = pyTake ((fun _ => "") v) 500) :=
  C10_output_summary_bounded (fun s => s) (fun _ => "") ⟨false, true⟩ []
    ⟨true, true, false, false, []⟩ (fun _ _ => .ok .none) "id" 3 4
    "database_schema" [] rfl rfl rfl rfl rfl

end MCPOps
